import Mathlib

/-!
# Verification of the 3D gallery room (suit-page)

Shallow embedding of the painting layout engine (`PaintingManager.js`), the
room/camera choreographer (`Room3D.js`), the page click glue and the lightbox
(Astro components), over exact rational arithmetic.  JavaScript numbers are
modelled as `ℚ`; the few transcendental values the code precomputes once
(`Math.tan` of half the field of view) are passed in as parameters, and the
transcendental tail of `THREE.Quaternion.slerp` (the `atan2`/`sin`/`sqrt`
branch) is a function parameter that the verified properties never reach.
-/

namespace SuitPage

/-- A 3-component vector, mirroring `THREE.Vector3` (components are JS
numbers, embedded as `ℚ`). -/
structure Vec3 where
  x : ℚ
  y : ℚ
  z : ℚ
  deriving DecidableEq, Repr

/-- Componentwise addition, mirroring `THREE.Vector3.add`. -/
def Vec3.add (a b : Vec3) : Vec3 :=
  ⟨a.x + b.x, a.y + b.y, a.z + b.z⟩

/-- Componentwise subtraction, mirroring `THREE.Vector3.sub`. -/
def Vec3.sub (a b : Vec3) : Vec3 :=
  ⟨a.x - b.x, a.y - b.y, a.z - b.z⟩

/-- Squared Euclidean norm of a vector. -/
def Vec3.normSq (a : Vec3) : ℚ :=
  a.x * a.x + a.y * a.y + a.z * a.z

/-- Scalar multiple of a vector. -/
def Vec3.smul (c : ℚ) (a : Vec3) : Vec3 :=
  ⟨c * a.x, c * a.y, c * a.z⟩

/-- `THREE.Vector3.lerp`: each component moves by `alpha` times the remaining
distance (`this.x += ( v.x - this.x ) * alpha`, etc.). -/
def Vec3.lerp (p v : Vec3) (alpha : ℚ) : Vec3 :=
  ⟨p.x + (v.x - p.x) * alpha, p.y + (v.y - p.y) * alpha, p.z + (v.z - p.z) * alpha⟩

/-- A quaternion, mirroring `THREE.Quaternion`. -/
structure Quat where
  x : ℚ
  y : ℚ
  z : ℚ
  w : ℚ
  deriving DecidableEq, Repr

/-- Componentwise negation of a quaternion (used by `slerp` when the dot
product is negative). -/
def Quat.neg (q : Quat) : Quat :=
  ⟨-q.x, -q.y, -q.z, -q.w⟩

/-- Squared norm of a quaternion. -/
def Quat.normSq (q : Quat) : ℚ :=
  q.x * q.x + q.y * q.y + q.z * q.z + q.w * q.w

/-- `THREE.Quaternion.slerp( qb, t )` (three.js r176), acting on the receiver
`q`.  Branch structure follows the source: early outs at `t === 0` and
`t === 1`; `cosHalfTheta` is the dot product of `q` and `qb`; a negative dot
product flips the interpolation target to `-qb`; when `cosHalfTheta >= 1` the
receiver's saved components are restored (result `q`).  The remaining code of
the source (the `sqrSinHalfTheta <= Number.EPSILON` linear fallback and the
`atan2`/`sin` spherical branch) computes transcendental functions that have no
exact rational embedding; it is abstracted by the `tail` parameter, which
receives the flipped target, the saved receiver, `t` and `cosHalfTheta`.  All
theorems below quantify over `tail`, so nothing proved depends on it. -/
def Quat.slerp (q qb : Quat) (t : ℚ) (tail : Quat → Quat → ℚ → ℚ → Quat) : Quat :=
  if t = 0 then q
  else if t = 1 then qb
  else
    let cosHalfTheta := q.w * qb.w + q.x * qb.x + q.y * qb.y + q.z * qb.z
    if cosHalfTheta < 0 then
      if 1 ≤ -cosHalfTheta then q
      else tail (Quat.neg qb) q t (-cosHalfTheta)
    else
      if 1 ≤ cosHalfTheta then q
      else tail qb q t cosHalfTheta

/-! ## PaintingManager constants (`PaintingManager.js`, constructor) -/

/-- `this.PADDING = 0.1` — 10cm padding between elements. -/
def PADDING : ℚ := 1/10

/-- `this.MAX_SIZE = 0.8` — maximum size for additional images. -/
def MAX_SIZE : ℚ := 4/5

/-- `this.MIN_SIZE = 0.3` — minimum size for additional images. -/
def MIN_SIZE : ℚ := 3/10

/-- Geometry of an additional-image mesh: `PlaneGeometry` width and height
(`imgMesh.geometry.parameters`). -/
structure ThumbGeom where
  width : ℚ
  height : ℚ
  deriving DecidableEq, Repr

/-- The wall a painting hangs on, encoded in the source as
`mesh.rotation.y`: `Math.PI / 2` (left wall), `-Math.PI / 2` (right wall),
`0` (front wall); `other` covers the `default` case of the source's
`switch` statements. -/
inductive RotY where
  | left
  | right
  | front
  | other
  deriving DecidableEq, Repr

/-- A painting mesh as the layout engine sees it: `PlaneGeometry` parameters
plus the `userData` fields set by `loadPainting`. -/
structure Mesh where
  position : Vec3
  width : ℚ
  height : ℚ
  isPortrait : Bool
  hasAdditionalImages : Bool
  additionalImagesCount : ℕ
  additionalImageMeshes : List ThumbGeom
  rotY : RotY
  deriving DecidableEq, Repr

/-- A loaded painting: `{ id, mesh }` as pushed onto `this.paintings`. -/
structure Painting where
  id : ℕ
  mesh : Mesh
  deriving DecidableEq, Repr

/-! ## loadPainting (`PaintingManager.js` lines 22–88): size and orientation -/

/-- Rendered size and orientation computed by `loadPainting` from the texture's
natural dimensions: `aspectRatio = width / height`; if `aspectRatio > 1` the
long edge (width) is fixed to the base size 4, else the height is; `isPortrait`
is `aspectRatio <= 1`. -/
structure PaintingSize where
  width : ℚ
  height : ℚ
  isPortrait : Bool
  deriving DecidableEq, Repr

/-- The size computation of `loadPainting` (base size 4 for main paintings). -/
def loadPaintingSize (texWidth texHeight : ℚ) : PaintingSize :=
  let aspectRatio := texWidth / texHeight
  if 1 < aspectRatio then
    { width := 4, height := 4 / aspectRatio, isPortrait := decide (aspectRatio ≤ 1) }
  else
    { width := 4 * aspectRatio, height := 4, isPortrait := decide (aspectRatio ≤ 1) }

/-! ## calculatePaintingCompositionSize (`PaintingManager.js` lines 90–115) -/

/-- Composition bounding size (width, height) of a painting plus its estimated
thumbnail strip.  Portrait: width grows by `ceil(count/3)` columns of
`MAX_SIZE + PADDING` plus one `PADDING`.  Landscape: height grows by
`ceil(count / floor(width*0.8/(MAX_SIZE+PADDING)))` rows.  (In the source a
zero `avgImagesPerRow` would give `Infinity`; here `ℚ` division by zero gives
`0`.  The engine only calls this on main paintings, whose landscape width is
the base size 4, where `avgImagesPerRow = 3`.) -/
def calculatePaintingCompositionSize (m : Mesh) : ℚ × ℚ :=
  if m.hasAdditionalImages then
    if m.isPortrait then
      let columnWidth := MAX_SIZE + PADDING
      let estimatedColumns : ℤ := Int.ceil ((m.additionalImagesCount : ℚ) / 3)
      (m.width + columnWidth * (estimatedColumns : ℚ) + PADDING, m.height)
    else
      let avgImagesPerRow : ℤ := Int.floor (m.width * (8/10) / (MAX_SIZE + PADDING))
      let estimatedRows : ℤ := Int.ceil ((m.additionalImagesCount : ℚ) / (avgImagesPerRow : ℚ))
      (m.width, m.height + (estimatedRows : ℚ) * MAX_SIZE + ((estimatedRows : ℚ) + 1) * PADDING)
  else (m.width, m.height)

/-! ## Camera framing (`PaintingManager.js` lines 117–225) -/

/-- Trigonometric values the camera code precomputes with `Math.tan`:
`tanHalfFov = Math.tan(camera.fov * (Math.PI/180) / 2)` and
`tanHalfFovAspect = Math.tan((camera.fov * Math.PI / 180) / 2 * camera.aspect)`
(the latter appears only in the portrait shift computation).  They are passed
in as exact rationals standing for the float results. -/
structure CameraParams where
  tanHalfFov : ℚ
  tanHalfFovAspect : ℚ
  deriving DecidableEq, Repr

/-- `optimalDistance = (maxPaintingDimension * padding) / (2 * Math.tan(fov/2))`
with `padding = 1.2`, from `calculateOptimalCameraPositionForPainting`. -/
def optimalDistance (m : Mesh) (cam : CameraParams) : ℚ :=
  max m.width m.height * (12/10) / (2 * cam.tanHalfFov)

/-- The wall-dependent camera offset `switch` (also factored out in
`Room3D.calculatePaintingOffset`): left wall `(+d, 0, 0)`, right wall
`(-d, 0, 0)`, front wall `(0, 0, +d)`; the `default` case leaves the offset
at its `new THREE.Vector3()` zero value. -/
def calculatePaintingOffset (rotY : RotY) (distance : ℚ) : Vec3 :=
  match rotY with
  | RotY.left => ⟨distance, 0, 0⟩
  | RotY.right => ⟨-distance, 0, 0⟩
  | RotY.front => ⟨0, 0, distance⟩
  | RotY.other => ⟨0, 0, 0⟩

/-- Outward normal of each wall (left wall sits at `x = -width/2`, so its
outward normal points along `+x`; right wall along `-x`; front wall, at
`z = -depth/2`, along `+z`). -/
def wallOutwardNormal (rotY : RotY) : Vec3 :=
  match rotY with
  | RotY.left => ⟨1, 0, 0⟩
  | RotY.right => ⟨-1, 0, 0⟩
  | RotY.front => ⟨0, 0, 1⟩
  | RotY.other => ⟨0, 0, 0⟩

/-- `calculateOptimalCameraPositionForPainting(painting, camera)` returning
`(position, target)`.  The composition centre starts at the painting's
position; if the painting has additional images the centre is shifted — for a
portrait painting along the wall by
`min((compWidth - width)/4, maxPossibleShift)` (direction by wall, no shift in
the `switch`'s missing-default case), for a landscape painting downward by
`min((compHeight - height)/2, maxPossibleShift)`.  The camera position is the
shifted centre plus the wall offset of length `optimalDistance`. -/
def calculateOptimalCameraPositionForPainting (m : Mesh) (cam : CameraParams) :
    Vec3 × Vec3 :=
  let paintingPos := m.position
  let dist := optimalDistance m cam
  let compositionCenter :=
    if m.hasAdditionalImages then
      if m.isPortrait then
        let viewportWidthAtDistance := 2 * dist * cam.tanHalfFovAspect
        let mainPaintingSpace := m.width + viewportWidthAtDistance * (2/10)
        let maxPossibleShift := (viewportWidthAtDistance - mainPaintingSpace) / 2
        let compositionSize := calculatePaintingCompositionSize m
        let idealShift := (compositionSize.1 - m.width) / 4
        let shift := min idealShift maxPossibleShift
        match m.rotY with
        | RotY.left => { paintingPos with z := paintingPos.z + shift }
        | RotY.right => { paintingPos with z := paintingPos.z - shift }
        | RotY.front => { paintingPos with x := paintingPos.x - shift }
        | RotY.other => paintingPos
      else
        let viewportHeightAtDistance := 2 * dist * cam.tanHalfFov
        let mainPaintingSpace := m.height + viewportHeightAtDistance * (2/10)
        let maxPossibleShift := (viewportHeightAtDistance - mainPaintingSpace) / 2
        let compositionSize := calculatePaintingCompositionSize m
        let idealShift := (compositionSize.2 - m.height) / 2
        let shift := min idealShift maxPossibleShift
        { paintingPos with y := paintingPos.y - shift }
    else paintingPos
  let offset := calculatePaintingOffset m.rotY dist
  (Vec3.add compositionCenter offset, compositionCenter)

/-! ## layoutRows (`PaintingManager.js` lines 358–431) -/

/-- Sum of the aspect ratios (`width / height` of each image geometry) of a
row — `aspectRatios.reduce((sum, ratio) => sum + ratio, 0)`. -/
def aspectSum (row : List ThumbGeom) : ℚ :=
  (row.map fun g => g.width / g.height).sum

/-- The row height before clamping:
`(availableWidth - totalPadding) / aspectRatioSum` with
`availableWidth = paintingWidth` and `totalPadding = (n-1) * PADDING`. -/
def rawRowHeight (paintingWidth : ℚ) (row : List ThumbGeom) : ℚ :=
  (paintingWidth - ((row.length : ℚ) - 1) * PADDING) / aspectSum row

/-- The scaled widths of one row: the raw height is clamped to
`[MIN_SIZE, MAX_SIZE]` (`Math.min(MAX_SIZE, Math.max(MIN_SIZE, rowHeight))`)
and each width is `rowHeight * ratio`. -/
def rowWidths (paintingWidth : ℚ) (row : List ThumbGeom) : List ℚ :=
  let rowHeight := min MAX_SIZE (max MIN_SIZE (rawRowHeight paintingWidth row))
  (row.map fun g => g.width / g.height).map fun ratio => rowHeight * ratio

/-- `maxImagesPerRow = Math.min(4, Math.max(2, Math.floor(paintingWidth /
(MIN_SIZE + PADDING))))`. -/
def maxImagesPerRow (paintingWidth : ℚ) : ℕ :=
  (min 4 (max 2 (Int.floor (paintingWidth / (MIN_SIZE + PADDING))))).toNat

/-- The row-grouping loop (`for (i = 0; i < images.length; i += maxImagesPerRow)
rows.push(images.slice(i, i + maxImagesPerRow))`), with the list length as
structural fuel.  For `k ≥ 1` (the caller guarantees `k ∈ [2,4]`) the fuel is
never exhausted. -/
def chunkAux {α : Type} : ℕ → List α → ℕ → List (List α)
  | 0, _, _ => []
  | _ + 1, [], _ => []
  | fuel + 1, a :: rest, k =>
      ((a :: rest).take k) :: chunkAux fuel ((a :: rest).drop k) k

/-- Group a list into consecutive chunks of `k` (the last chunk may be
shorter). -/
def chunkList {α : Type} (images : List α) (k : ℕ) : List (List α) :=
  chunkAux images.length images k

/-- `layoutRows(images, …, paintingWidth, …)` reduced to the data the layout
produces per row: the list of scaled image widths of each row (the vertical
stacking and per-wall positioning consume these widths unchanged). -/
def layoutRows (images : List ThumbGeom) (paintingWidth : ℚ) : List (List ℚ) :=
  (chunkList images (maxImagesPerRow paintingWidth)).map (rowWidths paintingWidth)

/-! ## Room sizing (`Room3D.js`: calculateTotalSpaceNeeded, lines 132–189,
and calculateRoomDimensions, lines 191–209) -/

/-- The totals returned by `calculateTotalSpaceNeeded`. -/
structure TotalSpace where
  leftWallWidth : ℚ
  frontWallWidth : ℚ
  maxHeight : ℚ
  deriving DecidableEq, Repr

/-- `calculateTotalSpaceNeeded(paintings)` after the Fisher–Yates shuffle: the
randomness is modelled by quantifying over the already-shuffled list.  The
first `ceil(n/2)` paintings go to the left wall, the rest to the front wall;
each wall's total is the sum of composition widths accumulated by the
`forEach` loops, and `maxHeight` is the running maximum of composition heights
over both groups, starting at `0`. -/
def calculateTotalSpaceNeeded (shuffled : List Mesh) : TotalSpace :=
  let k := (shuffled.length + 1) / 2
  let leftWallPaintings := shuffled.take k
  let frontWallPaintings := shuffled.drop k
  let totalLeftWallWidth :=
    leftWallPaintings.foldl (fun acc m => acc + (calculatePaintingCompositionSize m).1) 0
  let totalFrontWallWidth :=
    frontWallPaintings.foldl (fun acc m => acc + (calculatePaintingCompositionSize m).1) 0
  let maxHeightLeft :=
    leftWallPaintings.foldl (fun acc m => max acc (calculatePaintingCompositionSize m).2) 0
  let maxHeight :=
    frontWallPaintings.foldl (fun acc m => max acc (calculatePaintingCompositionSize m).2) maxHeightLeft
  { leftWallWidth := totalLeftWallWidth
    frontWallWidth := totalFrontWallWidth
    maxHeight := maxHeight }

/-- `WALL_PADDING = 2` — 2 meters padding on each wall. -/
def WALL_PADDING : ℚ := 2

/-- `MIN_ROOM_SIZE = 16` — minimum room size in meters. -/
def MIN_ROOM_SIZE : ℚ := 16

/-- Room dimensions `{ width, height, depth }`. -/
structure RoomDimensions where
  width : ℚ
  height : ℚ
  depth : ℚ
  deriving DecidableEq, Repr

/-- `calculateRoomDimensions(totalSpace)`: depth and width are the doubled
wall totals plus padding, floored at `MIN_ROOM_SIZE`; height is the doubled
max composition height floored at `MIN_ROOM_SIZE / 2`; finally the width is
raised to at least `4/5` of the depth. -/
def calculateRoomDimensions (totalSpace : TotalSpace) : RoomDimensions :=
  let depth := max MIN_ROOM_SIZE ((totalSpace.leftWallWidth + WALL_PADDING * 2) * 2)
  let width := max MIN_ROOM_SIZE ((totalSpace.frontWallWidth + WALL_PADDING * 2) * 2)
  let height := max (MIN_ROOM_SIZE / 2) (totalSpace.maxHeight * 2)
  let minWidthFromDepth := depth * (4/5)
  { width := max width minWidthFromDepth, height := height, depth := depth }

/-! ## Room3D camera state (`Room3D.js`) -/

/-- `this.focusPositionSpeed = 0.05`. -/
def focusPositionSpeed : ℚ := 1/20

/-- `this.focusRotationSpeed = 0.05`. -/
def focusRotationSpeed : ℚ := 1/20

/-- `this.resetPositionSpeed = 0.01`. -/
def resetPositionSpeed : ℚ := 1/100

/-- `this.resetRotationSpeed = 0.02`. -/
def resetRotationSpeed : ℚ := 1/50

/-- `this.resizeSpeed = 1`. -/
def resizeSpeed : ℚ := 1

/-- The mutable state of a `Room3D` instance that the camera choreography
reads and writes: the camera object's pose and projection parameters, the
mirrored `current*` fields, the externally writable `desired*` fields, the
active interpolation speed pair, focus state, readiness, renderer size, room
dimensions and the loaded paintings. -/
structure Room3DState where
  cameraPosition : Vec3
  cameraQuaternion : Quat
  cameraFov : ℚ
  cameraAspect : ℚ
  currentCameraPosition : Vec3
  currentCameraRotation : Quat
  desiredCameraPosition : Vec3
  desiredCameraRotation : Quat
  currentPositionSpeed : ℚ
  currentRotationSpeed : ℚ
  currentFocus : Option ℕ
  isReady : Bool
  rendererWidth : ℚ
  rendererHeight : ℚ
  roomDimensions : RoomDimensions
  paintings : List Painting
  deriving DecidableEq, Repr

/-- `calculateOptimalCameraPosition()` (`Room3D.js` lines 454–489): the
default-view distance, fit-to-height when the room is proportionally wider
than the viewport, else fit-to-width; height offset is `0`.  `tanHalfFov75`
stands for `Math.tan((75 * Math.PI / 180) / 2)`. -/
def calculateOptimalCameraPosition (s : Room3DState) (tanHalfFov75 : ℚ) : ℚ × ℚ :=
  let viewportRatio := s.rendererWidth / s.rendererHeight
  let roomRatio := s.roomDimensions.width / s.roomDimensions.height
  if viewportRatio < roomRatio then
    (s.roomDimensions.height / 2 / tanHalfFov75, 0)
  else
    (s.roomDimensions.width / 2 / (tanHalfFov75 * viewportRatio), 0)

/-- `animate()` (`Room3D.js` lines 335–353), one tick of the render loop: the
camera position lerps toward the desired position by `currentPositionSpeed`,
the camera quaternion slerps toward the desired rotation by
`currentRotationSpeed`, and the `current*` fields copy the camera's new pose.
`tail` abstracts the transcendental branch of `slerp` (see `Quat.slerp`). -/
def animateTick (s : Room3DState) (tail : Quat → Quat → ℚ → ℚ → Quat) : Room3DState :=
  let newPosition := s.cameraPosition.lerp s.desiredCameraPosition s.currentPositionSpeed
  let newQuaternion := s.cameraQuaternion.slerp s.desiredCameraRotation s.currentRotationSpeed tail
  { s with
    cameraPosition := newPosition
    currentCameraPosition := newPosition
    cameraQuaternion := newQuaternion
    currentCameraRotation := newQuaternion }

/-- `getPaintingById(id)` (both `PaintingManager.js` variants):
`this.paintings.find(p => p.id === id)`; the composition variant emits a
warning when no painting matches. -/
def getPaintingById (paintings : List Painting) (id : ℕ) : Option Painting :=
  paintings.find? fun p => p.id == id

/-- Severity of a `debug` signal emitted during an operation. -/
inductive LogLevel where
  | warn
  | error
  | log
  deriving DecidableEq, Repr

/-- `focusOnPainting(id)` (`Room3D.js` lines 355–407), returning the new state
and the warnings it emits.  Not-ready and unknown-id requests return before
any state field is touched.  On success it records the focus, switches to the
focus speed pair, asks the painting manager for the optimal pose and derives
the desired rotation with `Matrix4.lookAt`/`setFromRotationMatrix`; that
matrix construction normalizes with `Math.sqrt`, so it is abstracted as the
`lookAt` collaborator parameter. -/
def focusOnPainting (lookAt : Vec3 → Vec3 → Quat) (s : Room3DState) (id : ℕ)
    (cam : CameraParams) : Room3DState × List LogLevel :=
  if s.isReady = false then
    (s, [LogLevel.warn])
  else
    match getPaintingById s.paintings id with
    | none => (s, [LogLevel.warn])
    | some painting =>
      let s1 := { s with
        currentFocus := some painting.id
        currentPositionSpeed := focusPositionSpeed
        currentRotationSpeed := focusRotationSpeed }
      let cameraSetup := calculateOptimalCameraPositionForPainting painting.mesh cam
      ({ s1 with
          desiredCameraPosition := cameraSetup.1
          desiredCameraRotation := lookAt cameraSetup.1 cameraSetup.2 }, [])

/-- `handleResize()` (`Room3D.js` lines 491–530): the renderer is resized, the
camera fov is reset to 75 and its aspect updated; `optimalPosition` and
`isAtDefaultView` are computed (the source also measures
`distanceToOrigin`) but never written into the camera state; when no painting
is focused the interpolation speeds switch to `resizeSpeed` (a `setTimeout`
restores the reset speeds 100ms later — a separate event not part of this
transition). -/
def handleResize (s : Room3DState) (containerWidth containerHeight tanHalfFov75 : ℚ) :
    Room3DState :=
  let s1 := { s with
    rendererWidth := containerWidth
    rendererHeight := containerHeight
    cameraFov := 75
    cameraAspect := containerWidth / containerHeight }
  let _optimalPosition := calculateOptimalCameraPosition s1 tanHalfFov75
  if s1.currentFocus = none then
    { s1 with
      currentPositionSpeed := resizeSpeed
      currentRotationSpeed := resizeSpeed }
  else s1

/-! ## Click routing (`Room3D.js` handleClick, lines 533–579, and the page
glue `handlePaintingClick`, part_000 lines 134–163) -/

/-- What a ray intersection can hit: a main painting mesh (its
`userData.id`, set to the painting's id by `loadPainting`) or an additional
image mesh (its `userData.parentPaintingId` and 1-based
`userData.imageIndex`). -/
inductive HitTarget where
  | main (id : ℕ)
  | thumb (parentPaintingId : ℕ) (imageIndex : ℕ)
  deriving DecidableEq, Repr

/-- The tagging loop `additionalImageMeshes.forEach((imgMesh, index) =>
imgMesh.userData = { parentPaintingId, imageIndex: index + 1 })`, with the
running `index` made explicit. -/
def tagThumbs (parentPaintingId : ℕ) (thumbs : List ThumbGeom) (index : ℕ) :
    List HitTarget :=
  match thumbs with
  | [] => []
  | _ :: rest => HitTarget.thumb parentPaintingId (index + 1) :: tagThumbs parentPaintingId rest (index + 1)

/-- `allMeshes` as assembled by `handleClick`: for each painting its main mesh
followed by its tagged additional-image meshes. -/
def buildMeshes (paintings : List Painting) : List HitTarget :=
  paintings.flatMap fun p => HitTarget.main p.id :: tagThumbs p.id p.mesh.additionalImageMeshes 0

/-- The dispatch of `handleClick` on the distance-ordered intersection list
(`raycaster.intersectObjects` returns hits nearest first): no hit → no
callback; nearest hit a tagged additional image → callback
`(parentPaintingId, imageIndex)`; nearest hit a main painting → callback
invoked with the single argument `paintingId`, which the registered handler
`handlePaintingClick(paintingId, imageIndex = 0)` completes to
`(paintingId, 0)` via its default parameter.  The result is `some` of the
argument pair the callback receives, `none` when no callback is invoked. -/
def handleClick (intersects : List HitTarget) : Option (ℕ × ℕ) :=
  match intersects with
  | [] => none
  | clicked :: _ =>
    match clicked with
    | HitTarget.thumb parentPaintingId imageIndex => some (parentPaintingId, imageIndex)
    | HitTarget.main id => some (id, 0)

/-! ## Lightbox (`Lightbox.astro`, openLightbox, lines 491–518) -/

/-- `openLightbox(mainImageUrl, additionalImages = [], initialIndex = 0)`:
`currentImages = [mainImageUrl, ...additionalImages]` and
`currentImageIndex = Math.min(Math.max(0, initialIndex), currentImages.length - 1)`.
The clamped index is nonnegative, so it is returned as a `ℕ`. -/
def openLightbox (mainImageUrl : String) (additionalImages : List String)
    (initialIndex : ℤ) : List String × ℕ :=
  let currentImages := mainImageUrl :: additionalImages
  let currentImageIndex := min (max 0 initialIndex) ((currentImages.length : ℤ) - 1)
  (currentImages, currentImageIndex.toNat)

/-- The image lookup `updateImage` performs:
`lightboxImage.src = currentImages[currentImageIndex]`. -/
def displayedImage (mainImageUrl : String) (additionalImages : List String)
    (initialIndex : ℤ) : Option String :=
  let opened := openLightbox mainImageUrl additionalImages initialIndex
  opened.1.get? opened.2

/-! ## Sample data for concrete instantiations -/

/-- Four additional-image meshes as `loadPainting` creates them from source
images of aspect ratio `3/2`: geometry width `MAX_SIZE = 0.8`, height
`0.8 / (3/2) = 8/15`. -/
def sampleRow : List ThumbGeom :=
  [⟨4/5, 8/15⟩, ⟨4/5, 8/15⟩, ⟨4/5, 8/15⟩, ⟨4/5, 8/15⟩]

/-- Camera parameters with both precomputed tangents equal to `1`. -/
def sampleCamera : CameraParams :=
  { tanHalfFov := 1, tanHalfFovAspect := 1 }

/-- A landscape painting mesh on the left wall, no additional images. -/
def sampleLeftMesh : Mesh :=
  { position := ⟨-8, 0, 0⟩
    width := 4
    height := 3
    isPortrait := false
    hasAdditionalImages := false
    additionalImagesCount := 0
    additionalImageMeshes := []
    rotY := RotY.left }

/-- A ready, unfocused `Room3D` state at the default pose, with the camera at
rest (desired pose equal to current pose, identity rotation). -/
def sampleState : Room3DState :=
  { cameraPosition := ⟨0, 0, 16⟩
    cameraQuaternion := ⟨0, 0, 0, 1⟩
    cameraFov := 75
    cameraAspect := 16/9
    currentCameraPosition := ⟨0, 0, 16⟩
    currentCameraRotation := ⟨0, 0, 0, 1⟩
    desiredCameraPosition := ⟨0, 0, 16⟩
    desiredCameraRotation := ⟨0, 0, 0, 1⟩
    currentPositionSpeed := 1/100
    currentRotationSpeed := 1/50
    currentFocus := none
    isReady := true
    rendererWidth := 1600
    rendererHeight := 900
    roomDimensions := ⟨16, 8, 16⟩
    paintings := [] }

/-- A concrete stand-in for the `Matrix4.lookAt` collaborator. -/
def sampleLookAt : Vec3 → Vec3 → Quat := fun _ _ => ⟨0, 0, 0, 1⟩

/-- A concrete stand-in for the abstracted transcendental tail of `slerp`. -/
def sampleTail : Quat → Quat → ℚ → ℚ → Quat := fun q _ _ _ => q

/-! ## Theorems -/

/-- Pulling a common factor out of a list sum. -/
lemma sum_map_const_mul (c : ℚ) (l : List ℚ) :
    (l.map fun r => c * r).sum = c * l.sum := by
  induction l with
  | nil => simp
  | cons a t ih =>
    simp [ih]
    ring

/-- Evaluation of `maxImagesPerRow` at the landscape base width. -/
lemma maxImagesPerRow_base : maxImagesPerRow 4 = 4 := by
  have h : Int.floor ((4 : ℚ) / (MIN_SIZE + PADDING)) = 10 := by
    norm_num [MIN_SIZE, PADDING]
  simp [maxImagesPerRow, h]

/-- C1, counterexample.  A landscape painting of base width 4 with a single
square additional image: `layoutRows` puts it in one row whose raw height
`4` is clamped to `MAX_SIZE = 0.8`, so the scaled width is `0.8` and the row
fill `0.8 + 0×padding` is not the painting's width `4` — the claimed equality
fails for every row whose unclamped height leaves `[MIN_SIZE, MAX_SIZE]`. -/
theorem layoutRows_clamped_row_cex :
    layoutRows [⟨4/5, 4/5⟩] 4 = [[4/5]] ∧
    ¬ (∀ row ∈ layoutRows [⟨4/5, 4/5⟩] 4,
        row.sum + ((row.length : ℚ) - 1) * PADDING = 4) := by
  have hrows : layoutRows [⟨4/5, 4/5⟩] 4 = [[4/5]] := by
    norm_num [layoutRows, chunkList, chunkAux, maxImagesPerRow_base, rowWidths,
      rawRowHeight, aspectSum, MIN_SIZE, PADDING, MAX_SIZE, List.take, List.sum_cons]
  refine ⟨hrows, fun h => ?_⟩
  have h2 := h [4/5] (by rw [hrows]; exact List.mem_singleton.mpr rfl)
  norm_num [PADDING] at h2

/-- C1, amended.  For every row produced by `layoutRows`, the sum of the
scaled image widths plus `(n-1)` times the inter-image padding equals the main
painting's width, provided the row's unclamped height
`(paintingWidth - (n-1)·PADDING) / aspectRatioSum` lies within
`[MIN_SIZE, MAX_SIZE]` (and the aspect-ratio sum is positive); when the clamp
to `[MIN_SIZE, MAX_SIZE]` fires, the equality fails (see the
counterexample). -/
theorem layoutRows_row_fill (paintingWidth : ℚ) (images grow : List ThumbGeom)
    (hmem : grow ∈ chunkList images (maxImagesPerRow paintingWidth))
    (hS : 0 < aspectSum grow)
    (hmin : MIN_SIZE ≤ rawRowHeight paintingWidth grow)
    (hmax : rawRowHeight paintingWidth grow ≤ MAX_SIZE) :
    (rowWidths paintingWidth grow).sum + ((grow.length : ℚ) - 1) * PADDING = paintingWidth
      ∧ rowWidths paintingWidth grow ∈ layoutRows images paintingWidth := by
  constructor
  · have hclamp : min MAX_SIZE (max MIN_SIZE (rawRowHeight paintingWidth grow))
        = rawRowHeight paintingWidth grow := by
      rw [max_eq_right hmin, min_eq_right hmax]
    have hsum : (rowWidths paintingWidth grow).sum
        = rawRowHeight paintingWidth grow * aspectSum grow := by
      simp only [rowWidths, hclamp, sum_map_const_mul, aspectSum]
    have hmul : rawRowHeight paintingWidth grow * aspectSum grow
        = paintingWidth - ((grow.length : ℚ) - 1) * PADDING := by
      rw [rawRowHeight, div_mul_cancel₀ _ (ne_of_gt hS)]
    rw [hsum, hmul]
    ring
  · exact List.mem_map_of_mem _ hmem

/-- C1, witness: four images of aspect ratio `3/2` on the base-width painting
form a single row with raw height `37/60 ∈ [MIN_SIZE, MAX_SIZE]`, and the row
fill equals the painting width `4`. -/
theorem layoutRows_row_fill_witness :
    (sampleRow ∈ chunkList sampleRow (maxImagesPerRow 4)
      ∧ 0 < aspectSum sampleRow
      ∧ MIN_SIZE ≤ rawRowHeight 4 sampleRow
      ∧ rawRowHeight 4 sampleRow ≤ MAX_SIZE)
    ∧ ((rowWidths 4 sampleRow).sum + ((sampleRow.length : ℚ) - 1) * PADDING = 4
      ∧ rowWidths 4 sampleRow ∈ layoutRows sampleRow 4) := by
  have hmem : sampleRow ∈ chunkList sampleRow (maxImagesPerRow 4) := by
    simp [chunkList, chunkAux, maxImagesPerRow_base, sampleRow, List.take]
  have hS : 0 < aspectSum sampleRow := by
    norm_num [aspectSum, sampleRow]
  have hmin : MIN_SIZE ≤ rawRowHeight 4 sampleRow := by
    norm_num [rawRowHeight, aspectSum, sampleRow, MIN_SIZE, PADDING]
  have hmax : rawRowHeight 4 sampleRow ≤ MAX_SIZE := by
    norm_num [rawRowHeight, aspectSum, sampleRow, MAX_SIZE, PADDING]
  exact ⟨⟨hmem, hS, hmin, hmax⟩, layoutRows_row_fill 4 sampleRow sampleRow hmem hS hmin hmax⟩

/-- Subtracting the base point of a translated vector recovers the offset. -/
lemma Vec3.add_sub_cancel_left (c o : Vec3) : Vec3.sub (Vec3.add c o) c = o := by
  cases c
  cases o
  simp [Vec3.add, Vec3.sub]

/-- The returned camera position minus the returned target is exactly the
wall-offset vector of length `optimalDistance`, whatever shift the
composition centre received. -/
lemma calcOptimal_sub_eq_offset (m : Mesh) (cam : CameraParams) :
    Vec3.sub (calculateOptimalCameraPositionForPainting m cam).1
        (calculateOptimalCameraPositionForPainting m cam).2
      = calculatePaintingOffset m.rotY (optimalDistance m cam) := by
  simp only [calculateOptimalCameraPositionForPainting]
  exact Vec3.add_sub_cancel_left _ _

/-- C2: the camera offset computed by
`calculateOptimalCameraPositionForPainting` is wall-dependent exactly as each
wall's outward normal prescribes: on the left wall the camera is displaced
from the (possibly shifted) target by `+optimalDistance` along the axis
perpendicular to that wall (`+x`), on the right wall by `-optimalDistance`
(`-x`), on the front wall by `+optimalDistance` along `+z`; and the
displacement length `optimalDistance` is positive whenever the painting
dimensions and the fov tangent are. -/
theorem cameraOffset_matches_wall_normal (m : Mesh) (cam : CameraParams) :
    Vec3.sub (calculateOptimalCameraPositionForPainting m cam).1
        (calculateOptimalCameraPositionForPainting m cam).2
      = Vec3.smul (optimalDistance m cam) (wallOutwardNormal m.rotY)
    ∧ (0 < max m.width m.height → 0 < cam.tanHalfFov → 0 < optimalDistance m cam) := by
  constructor
  · rw [calcOptimal_sub_eq_offset]
    cases m.rotY <;>
      simp [calculatePaintingOffset, wallOutwardNormal, Vec3.smul]
  · intro hdim htan
    unfold optimalDistance
    positivity

/-- C2, witness: a landscape painting on the left wall with unit fov tangent
gives the positive displacement length `12/5`. -/
theorem cameraOffset_matches_wall_normal_witness :
    0 < max sampleLeftMesh.width sampleLeftMesh.height
    ∧ 0 < sampleCamera.tanHalfFov
    ∧ 0 < optimalDistance sampleLeftMesh sampleCamera := by
  have hdim : 0 < max sampleLeftMesh.width sampleLeftMesh.height := by
    norm_num [sampleLeftMesh]
  have htan : 0 < sampleCamera.tanHalfFov := by
    norm_num [sampleCamera]
  exact ⟨hdim, htan, (cameraOffset_matches_wall_normal sampleLeftMesh sampleCamera).2 hdim htan⟩

/-- C3: for a painting on any of the three walls, the squared distance between
the returned camera position and target equals `optimalDistance` squared,
`optimalDistance` is `(max(width, height) × 1.2) / (2·tan(fov/2))`, and it is
unchanged under any modification of the thumbnail data
(`hasAdditionalImages`, `additionalImagesCount`, `additionalImageMeshes`) —
the thumbnail strip shifts only the look-at target, never the distance. -/
theorem optimalDistance_independent_of_thumbnails (m : Mesh) (cam : CameraParams)
    (hwall : m.rotY ≠ RotY.other) :
    Vec3.normSq (Vec3.sub (calculateOptimalCameraPositionForPainting m cam).1
        (calculateOptimalCameraPositionForPainting m cam).2)
      = (optimalDistance m cam) ^ 2
    ∧ optimalDistance m cam = max m.width m.height * (12/10) / (2 * cam.tanHalfFov)
    ∧ (∀ (b : Bool) (n : ℕ) (thumbs : List ThumbGeom),
        optimalDistance { m with
            hasAdditionalImages := b
            additionalImagesCount := n
            additionalImageMeshes := thumbs } cam
          = optimalDistance m cam) := by
  refine ⟨?_, rfl, fun b n thumbs => rfl⟩
  rw [calcOptimal_sub_eq_offset]
  cases h : m.rotY with
  | other => exact absurd h hwall
  | left => simp [calculatePaintingOffset, Vec3.normSq]; ring
  | right => simp [calculatePaintingOffset, Vec3.normSq]; ring
  | front => simp [calculatePaintingOffset, Vec3.normSq]; ring

/-- C3, witness: the left-wall sample painting (max dimension 4, fov tangent
1) is framed at squared distance `(12/5)^2`. -/
theorem optimalDistance_independent_of_thumbnails_witness :
    sampleLeftMesh.rotY ≠ RotY.other
    ∧ Vec3.normSq (Vec3.sub
        (calculateOptimalCameraPositionForPainting sampleLeftMesh sampleCamera).1
        (calculateOptimalCameraPositionForPainting sampleLeftMesh sampleCamera).2)
      = (optimalDistance sampleLeftMesh sampleCamera) ^ 2 := by
  have hwall : sampleLeftMesh.rotY ≠ RotY.other := by
    simp [sampleLeftMesh]
  exact ⟨hwall, (optimalDistance_independent_of_thumbnails sampleLeftMesh sampleCamera hwall).1⟩

/-- C4: a resize event never writes the desired camera pose.  In every state
`handleResize` leaves `desiredCameraPosition` and `desiredCameraRotation`
(and the current pose, the focus and readiness) unchanged and updates only the
renderer size, the camera's fov/aspect and — in the DEFAULT (unfocused) state —
the interpolation speeds; in the FOCUSED state even the speeds are untouched,
so the focused desired pose survives a resize entirely.  (The source computes
the new default-view distance during a resize but never applies it to the
desired pose.) -/
theorem handleResize_desired_pose (s : Room3DState)
    (containerWidth containerHeight tanHalfFov75 : ℚ) :
    (handleResize s containerWidth containerHeight tanHalfFov75).desiredCameraPosition
        = s.desiredCameraPosition
    ∧ (handleResize s containerWidth containerHeight tanHalfFov75).desiredCameraRotation
        = s.desiredCameraRotation
    ∧ (handleResize s containerWidth containerHeight tanHalfFov75).cameraPosition
        = s.cameraPosition
    ∧ (handleResize s containerWidth containerHeight tanHalfFov75).cameraQuaternion
        = s.cameraQuaternion
    ∧ (handleResize s containerWidth containerHeight tanHalfFov75).currentCameraPosition
        = s.currentCameraPosition
    ∧ (handleResize s containerWidth containerHeight tanHalfFov75).currentCameraRotation
        = s.currentCameraRotation
    ∧ (handleResize s containerWidth containerHeight tanHalfFov75).currentFocus
        = s.currentFocus
    ∧ (handleResize s containerWidth containerHeight tanHalfFov75).isReady = s.isReady
    ∧ (handleResize s containerWidth containerHeight tanHalfFov75).cameraAspect
        = containerWidth / containerHeight
    ∧ (handleResize s containerWidth containerHeight tanHalfFov75).cameraFov = 75
    ∧ (s.currentFocus ≠ none →
        (handleResize s containerWidth containerHeight tanHalfFov75).currentPositionSpeed
            = s.currentPositionSpeed
        ∧ (handleResize s containerWidth containerHeight tanHalfFov75).currentRotationSpeed
            = s.currentRotationSpeed) := by
  by_cases h : s.currentFocus = none <;>
    simp [handleResize, h]

/-- C4, witness: resizing while focused on painting `0` leaves the
interpolation speeds (and with them the focused desired pose) unchanged. -/
theorem handleResize_desired_pose_witness :
    ({ sampleState with currentFocus := some 0 } : Room3DState).currentFocus ≠ none
    ∧ ((handleResize { sampleState with currentFocus := some 0 } 800 600 1).currentPositionSpeed
        = ({ sampleState with currentFocus := some 0 } : Room3DState).currentPositionSpeed
      ∧ (handleResize { sampleState with currentFocus := some 0 } 800 600 1).currentRotationSpeed
        = ({ sampleState with currentFocus := some 0 } : Room3DState).currentRotationSpeed) := by
  have h : ({ sampleState with currentFocus := some 0 } : Room3DState).currentFocus ≠ none := by
    simp
  exact ⟨h,
    (handleResize_desired_pose { sampleState with currentFocus := some 0 } 800 600 1).2.2.2.2.2.2.2.2.2.2 h⟩

/-- The explicit-index tagging loop produces exactly the 1-based indices
`index + 1, index + 2, …` for the successive additional images. -/
lemma tagThumbs_indices (parentPaintingId index : ℕ) (thumbs : List ThumbGeom) :
    tagThumbs parentPaintingId thumbs index
      = (List.range thumbs.length).map
          fun i => HitTarget.thumb parentPaintingId (index + i + 1) := by
  induction thumbs generalizing index with
  | nil => simp [tagThumbs]
  | cons a t ih =>
    simp only [tagThumbs, ih, List.length_cons, List.range_succ_eq_map, List.map_cons,
      List.map_map]
    refine congrArg₂ _ (by simp) ?_
    apply List.map_congr_left
    intro i _
    simp only [Function.comp_apply]
    congr 1
    omega

/-- C5: click dispatch.  If the nearest ray intersection is a tagged
additional-image mesh, the click callback receives
`(parentPaintingId, imageIndex)`; if it is a main painting mesh, the callback
(via the registered handler's `imageIndex = 0` default) receives
`(paintingId, 0)`; an empty intersection list invokes nothing.  Moreover the
mesh set assembled from the paintings tags the additional images of each
painting with exactly the 1-based indices `1, …, count`. -/
theorem handleClick_dispatch :
    (∀ (parentPaintingId imageIndex : ℕ) (rest : List HitTarget),
      handleClick (HitTarget.thumb parentPaintingId imageIndex :: rest)
        = some (parentPaintingId, imageIndex))
    ∧ (∀ (paintingId : ℕ) (rest : List HitTarget),
        handleClick (HitTarget.main paintingId :: rest) = some (paintingId, 0))
    ∧ handleClick [] = none
    ∧ (∀ (ps : List Painting),
        buildMeshes ps = ps.flatMap fun p =>
          HitTarget.main p.id ::
            (List.range p.mesh.additionalImageMeshes.length).map
              fun i => HitTarget.thumb p.id (i + 1)) := by
  refine ⟨fun _ _ _ => rfl, fun _ _ => rfl, rfl, fun ps => ?_⟩
  unfold buildMeshes
  congr 1
  funext p
  rw [tagThumbs_indices]
  simp

/-- C6: an invalid focus request — the room not yet ready, or an unknown
painting id — emits a warning-level signal and leaves the whole camera state
(desired pose, current pose, focus, speeds and everything else) unchanged. -/
theorem focusOnPainting_invalid_noop (lookAt : Vec3 → Vec3 → Quat)
    (s : Room3DState) (id : ℕ) (cam : CameraParams)
    (hinvalid : s.isReady = false ∨ getPaintingById s.paintings id = none) :
    (focusOnPainting lookAt s id cam).1 = s
    ∧ (focusOnPainting lookAt s id cam).2 = [LogLevel.warn] := by
  by_cases hr : s.isReady = false
  · simp [focusOnPainting, hr]
  · cases hinvalid with
    | inl h => exact absurd h hr
    | inr h => simp [focusOnPainting, hr, h]

/-- C6, witness: focusing before initialization completes is a no-op that
warns. -/
theorem focusOnPainting_invalid_noop_witness :
    ({ sampleState with isReady := false } : Room3DState).isReady = false
    ∧ (focusOnPainting sampleLookAt { sampleState with isReady := false } 0 sampleCamera).1
        = { sampleState with isReady := false }
    ∧ (focusOnPainting sampleLookAt { sampleState with isReady := false } 0 sampleCamera).2
        = [LogLevel.warn] := by
  have h := focusOnPainting_invalid_noop sampleLookAt { sampleState with isReady := false } 0
    sampleCamera (Or.inl rfl)
  exact ⟨rfl, h.1, h.2⟩

/-- An accumulating `forEach` addition loop computes the initial value plus
the list sum. -/
lemma foldl_add_eq_sum (f : Mesh → ℚ) (init : ℚ) (l : List Mesh) :
    l.foldl (fun acc m => acc + f m) init = init + (l.map f).sum := by
  induction l generalizing init with
  | nil => simp
  | cons a t ih =>
    simp [ih]
    ring

/-- C7: in the auto-fit variant, for every input painting set (in whatever
order the shuffle produced), the room depth and width returned by
`calculateRoomDimensions` are the doubled summed composition widths of the
paintings assigned to the left and front walls plus the fixed
`WALL_PADDING`, both floored at `MIN_ROOM_SIZE` (the height at
`MIN_ROOM_SIZE / 2`), and the final width satisfies the aspect constraint
`width ≥ 4/5 × depth`. -/
theorem calculateRoomDimensions_spec (shuffled : List Mesh) :
    (calculateTotalSpaceNeeded shuffled).leftWallWidth
        = ((shuffled.take ((shuffled.length + 1) / 2)).map
            fun m => (calculatePaintingCompositionSize m).1).sum
    ∧ (calculateTotalSpaceNeeded shuffled).frontWallWidth
        = ((shuffled.drop ((shuffled.length + 1) / 2)).map
            fun m => (calculatePaintingCompositionSize m).1).sum
    ∧ (calculateRoomDimensions (calculateTotalSpaceNeeded shuffled)).depth
        = max MIN_ROOM_SIZE
            (((calculateTotalSpaceNeeded shuffled).leftWallWidth + WALL_PADDING * 2) * 2)
    ∧ (calculateRoomDimensions (calculateTotalSpaceNeeded shuffled)).width
        = max (max MIN_ROOM_SIZE
            (((calculateTotalSpaceNeeded shuffled).frontWallWidth + WALL_PADDING * 2) * 2))
            ((calculateRoomDimensions (calculateTotalSpaceNeeded shuffled)).depth * (4/5))
    ∧ MIN_ROOM_SIZE ≤ (calculateRoomDimensions (calculateTotalSpaceNeeded shuffled)).depth
    ∧ MIN_ROOM_SIZE ≤ (calculateRoomDimensions (calculateTotalSpaceNeeded shuffled)).width
    ∧ MIN_ROOM_SIZE / 2 ≤ (calculateRoomDimensions (calculateTotalSpaceNeeded shuffled)).height
    ∧ (calculateRoomDimensions (calculateTotalSpaceNeeded shuffled)).depth * (4/5)
        ≤ (calculateRoomDimensions (calculateTotalSpaceNeeded shuffled)).width := by
  refine ⟨?_, ?_, rfl, rfl, ?_, ?_, ?_, ?_⟩
  · simp [calculateTotalSpaceNeeded, foldl_add_eq_sum]
  · simp [calculateTotalSpaceNeeded, foldl_add_eq_sum]
  · exact le_max_left _ _
  · exact le_trans (le_max_left _ _) (le_max_left _ _)
  · exact le_max_left _ _
  · exact le_max_right _ _

/-- C8, counterexample.  A square source image (100 × 100, aspect ratio
exactly 1) is classified portrait (`isPortrait = aspectRatio <= 1`), but its
rendered width and height are both the base size 4, so the claimed strict
inequality `height > width` for ratio ≤ 1 fails. -/
theorem loadPaintingSize_square_cex :
    (loadPaintingSize 100 100).isPortrait = true
    ∧ (loadPaintingSize 100 100).width = 4
    ∧ (loadPaintingSize 100 100).height = 4
    ∧ ¬ (loadPaintingSize 100 100).width < (loadPaintingSize 100 100).height := by
  norm_num [loadPaintingSize]

/-- C8, amended.  Orientation classification by `loadPainting` is total and
exclusive: aspect ratio strictly greater than 1 gives a landscape painting
(`isPortrait = false`) with rendered width strictly greater than rendered
height; aspect ratio at most 1 gives a portrait painting with rendered height
at least the rendered width, the inequality strict except for a perfectly
square image (ratio exactly 1), where both rendered edges equal the base
size. -/
theorem loadPaintingSize_orientation (texWidth texHeight : ℚ) :
    (1 < texWidth / texHeight →
      (loadPaintingSize texWidth texHeight).isPortrait = false
      ∧ (loadPaintingSize texWidth texHeight).height
          < (loadPaintingSize texWidth texHeight).width)
    ∧ (texWidth / texHeight ≤ 1 →
      (loadPaintingSize texWidth texHeight).isPortrait = true
      ∧ (loadPaintingSize texWidth texHeight).width
          ≤ (loadPaintingSize texWidth texHeight).height)
    ∧ (texWidth / texHeight < 1 →
      (loadPaintingSize texWidth texHeight).width
          < (loadPaintingSize texWidth texHeight).height) := by
  constructor
  · intro hr
    have hpos : (0 : ℚ) < texWidth / texHeight := lt_trans one_pos hr
    rw [loadPaintingSize, if_pos hr]
    refine ⟨by simp [not_le_of_lt hr], ?_⟩
    simp only
    rw [div_lt_iff₀ hpos]
    linarith
  · constructor
    · intro hr
      rw [loadPaintingSize, if_neg (not_lt_of_le hr)]
      exact ⟨by simp [hr], by simp only; linarith⟩
    · intro hr
      rw [loadPaintingSize, if_neg (not_lt_of_le (le_of_lt hr))]
      simp only
      linarith

/-- C8, witness: a 100 × 50 image (ratio 2) is landscape with width 4 and
height 2; a 50 × 100 image (ratio 1/2) is portrait with width 2 and
height 4. -/
theorem loadPaintingSize_orientation_witness :
    (1 < (100 : ℚ) / 50
      ∧ (loadPaintingSize 100 50).isPortrait = false
      ∧ (loadPaintingSize 100 50).height < (loadPaintingSize 100 50).width)
    ∧ ((50 : ℚ) / 100 < 1
      ∧ (loadPaintingSize 50 100).width < (loadPaintingSize 50 100).height) := by
  have h1 : (1 : ℚ) < 100 / 50 := by norm_num
  have h2 : (50 : ℚ) / 100 < 1 := by norm_num
  have hl := (loadPaintingSize_orientation 100 50).1 h1
  have hp := (loadPaintingSize_orientation 50 100).2.2 h2
  exact ⟨⟨h1, hl.1, hl.2⟩, ⟨h2, hp⟩⟩

/-- C9: the per-frame interpolation tick is idempotent at its fixed point.
For every state whose desired position equals the camera position and whose
desired rotation equals the camera quaternion (a unit quaternion, as camera
rotations are), one `animate` tick leaves the camera position and quaternion —
and hence the mirrored `current*` fields — unchanged, for every positive
speed pair and every instantiation of the abstracted `slerp` tail. -/
theorem animateTick_fixed_point (s : Room3DState) (tail : Quat → Quat → ℚ → ℚ → Quat)
    (hpos : s.desiredCameraPosition = s.cameraPosition)
    (hrot : s.desiredCameraRotation = s.cameraQuaternion)
    (hunit : Quat.normSq s.cameraQuaternion = 1)
    (_hps : 0 < s.currentPositionSpeed)
    (_hrs : 0 < s.currentRotationSpeed) :
    (animateTick s tail).cameraPosition = s.cameraPosition
    ∧ (animateTick s tail).cameraQuaternion = s.cameraQuaternion
    ∧ (animateTick s tail).currentCameraPosition = s.cameraPosition
    ∧ (animateTick s tail).currentCameraRotation = s.cameraQuaternion := by
  have hlerp : s.cameraPosition.lerp s.desiredCameraPosition s.currentPositionSpeed
      = s.cameraPosition := by
    rw [hpos]
    cases s.cameraPosition
    simp [Vec3.lerp]
  have hdot : s.cameraQuaternion.w * s.cameraQuaternion.w
      + s.cameraQuaternion.x * s.cameraQuaternion.x
      + s.cameraQuaternion.y * s.cameraQuaternion.y
      + s.cameraQuaternion.z * s.cameraQuaternion.z = 1 := by
    have := hunit
    rw [Quat.normSq] at this
    linarith
  have hslerp : s.cameraQuaternion.slerp s.desiredCameraRotation s.currentRotationSpeed tail
      = s.cameraQuaternion := by
    rw [hrot, Quat.slerp]
    by_cases ht0 : s.currentRotationSpeed = 0
    · simp [ht0]
    · by_cases ht1 : s.currentRotationSpeed = 1
      · simp [ht0, ht1]
      · rw [if_neg ht0, if_neg ht1]
        simp only [hdot]
        norm_num
  refine ⟨?_, ?_, ?_, ?_⟩ <;> simp [animateTick, hlerp, hslerp]

/-- C9, witness: the resting sample state (desired pose equal to current,
identity rotation, reset speed pair) is left exactly in place by a tick. -/
theorem animateTick_fixed_point_witness :
    sampleState.desiredCameraPosition = sampleState.cameraPosition
    ∧ sampleState.desiredCameraRotation = sampleState.cameraQuaternion
    ∧ Quat.normSq sampleState.cameraQuaternion = 1
    ∧ 0 < sampleState.currentPositionSpeed
    ∧ 0 < sampleState.currentRotationSpeed
    ∧ (animateTick sampleState sampleTail).cameraPosition = sampleState.cameraPosition
    ∧ (animateTick sampleState sampleTail).cameraQuaternion = sampleState.cameraQuaternion := by
  have hunit : Quat.normSq sampleState.cameraQuaternion = 1 := by
    norm_num [sampleState, Quat.normSq]
  have hps : 0 < sampleState.currentPositionSpeed := by norm_num [sampleState]
  have hrs : 0 < sampleState.currentRotationSpeed := by norm_num [sampleState]
  have h := animateTick_fixed_point sampleState sampleTail rfl rfl hunit hps hrs
  exact ⟨rfl, rfl, hunit, hps, hrs, h.1, h.2.1⟩

/-- C10: for every call to `openLightbox`, including negative or too-large
`initialIndex` values, the displayed image index is clamped into
`[0, length - 1]` of the combined image list, so the image lookup
`currentImages[currentImageIndex]` is always in bounds. -/
theorem openLightbox_index_in_bounds (mainImageUrl : String)
    (additionalImages : List String) (initialIndex : ℤ) :
    (openLightbox mainImageUrl additionalImages initialIndex).2
        < (openLightbox mainImageUrl additionalImages initialIndex).1.length
    ∧ displayedImage mainImageUrl additionalImages initialIndex ≠ none := by
  have hidx : (openLightbox mainImageUrl additionalImages initialIndex).2
      < (openLightbox mainImageUrl additionalImages initialIndex).1.length := by
    simp only [openLightbox, List.length_cons]
    omega
  refine ⟨hidx, ?_⟩
  rw [displayedImage, Ne, List.get?_eq_none]
  omega

end SuitPage
